import Mathlib

/-! # Environment examples (`examples/01-environment`)

A shallow embedding of `setup_test.c` and `debug_example.c`.

* Standard output is a `String`; every `printf` call appends its formatted text.
* The heap is an explicit list of live blocks.  The library calls that touch it
  (`malloc`, `strcpy`, `strcmp`, `free`) are fallible: an access outside a live block or
  the release of a block that is not live is a `Fault`.  Every call also appends an
  `Event` to a trace, so that statements about which operations were performed can be made.
* What the program receives from its platform is collected in `Env`: the `sqrt` of the
  math library, the outcome of `malloc`, the indeterminate contents of fresh storage and
  the two predefined macros printed by the summary.
* A C `double` is an IEC 60559 binary64 bit pattern.
-/

/-! ## C doubles -/

/-- A C `double`: an IEC 60559 binary64 datum, given by its bit pattern (read modulo `2^64`). -/
structure Double where
  bits : Nat
deriving DecidableEq, Repr

namespace Double

/-- Sign bit. -/
def sign (x : Double) : Nat := x.bits / 2 ^ 63 % 2

/-- Biased exponent field (11 bits). -/
def expo (x : Double) : Nat := x.bits / 2 ^ 52 % 2 ^ 11

/-- Fraction field (52 bits). -/
def frac (x : Double) : Nat := x.bits % 2 ^ 52

def isNaN (x : Double) : Bool := x.expo == 2047 && x.frac != 0

def isZero (x : Double) : Bool := x.expo == 0 && x.frac == 0

/-- The C operator `==` on doubles: a NaN equals nothing, the two zeros are equal, and any
other two data are equal exactly when their bit patterns are.  No tolerance is involved. -/
def eq (a b : Double) : Bool :=
  !a.isNaN && !b.isNaN && ((a.isZero && b.isZero) || a.bits % 2 ^ 64 == b.bits % 2 ^ 64)

end Double

/-- The literal `16.0`. -/
def lit_16_0 : Double := ⟨0x4030000000000000⟩

/-- The literal `4.0`. -/
def lit_4_0 : Double := ⟨0x4010000000000000⟩

/-! ### The square root of IEC 60559

`sqrt` belongs to the C library, not to the repository.  The program receives it through
`Env.sqrt`.  `IEC60559.sqrt` is the operation a conforming library (C Annex F) provides: the
square root rounded correctly to the nearest binary64, ties to even. -/

namespace IEC60559

/-- Bitwise integer square root: with `r` the bits found so far, tries bits `k-1, …, 0`.
`isqrtAux n k 0` is `⌊√n⌋` when `n < 4 ^ k`. -/
def isqrtAux (n : Nat) : Nat → Nat → Nat
  | 0, r => r
  | k + 1, r =>
    if (r + 2 ^ k) * (r + 2 ^ k) ≤ n then isqrtAux n k (r + 2 ^ k) else isqrtAux n k r

/-- Shifts a subnormal significand `m` (value `m * 2 ^ e`) up until its leading bit is bit 52. -/
def normalize : Nat → Nat → Int → Nat × Int
  | 0, m, e => (m, e)
  | k + 1, m, e => if m < 2 ^ 52 then normalize k (2 * m) (e - 1) else (m, e)

/-- The default quiet NaN. -/
def qNaN : Double := ⟨0x7FF8000000000000⟩

/-- Correctly rounded square root of a binary64 datum (round to nearest, ties to even). -/
def sqrt (x : Double) : Double :=
  if x.isNaN then ⟨x.bits % 2 ^ 64 / 2 ^ 52 * 2 ^ 52 + 2 ^ 51 + x.frac % 2 ^ 51⟩
  else if x.isZero then ⟨x.bits % 2 ^ 64⟩
  else if x.sign == 1 then qNaN
  else if x.expo == 2047 then ⟨x.bits % 2 ^ 64⟩
  else
    -- the argument is `m * 2 ^ e` with `2 ^ 52 ≤ m < 2 ^ 53`
    let me : Nat × Int :=
      if x.expo == 0 then normalize 52 x.frac (-1074) else (2 ^ 52 + x.frac, (x.expo : Int) - 1075)
    -- make the exponent even: `2 ^ 52 ≤ m < 2 ^ 54`
    let me : Nat × Int := if me.2 % 2 == 0 then me else (2 * me.1, me.2 - 1)
    let n := me.1 * 2 ^ 54
    -- `2 ^ 53 ≤ s < 2 ^ 54`: 53 result bits and one rounding bit
    let s := isqrtAux n 54 0
    let q := s / 2
    let up : Bool := s % 2 == 1 && (s * s != n || q % 2 == 1)
    let q := if up then q + 1 else q
    let qE : Nat × Int := if q == 2 ^ 53 then (2 ^ 52, me.2 / 2 + 27) else (q, me.2 / 2 + 26)
    ⟨(qE.2 + 1023).toNat * 2 ^ 52 + (qE.1 - 2 ^ 52)⟩

end IEC60559

/-! ## Faults -/

/-- Ways in which an execution leaves the defined behaviour of the program. -/
inductive Fault
  /-- `assert` failed: the process is aborted. -/
  | abort
  /-- A read or write outside a live heap block (null, released or too short). -/
  | badAccess (p : Nat)
  /-- `free` of a pointer that is neither null nor a live block. -/
  | badFree (p : Nat)
  /-- An array subscript outside the array. -/
  | outOfRange (i : Nat)
deriving DecidableEq, Repr

/-! ## `debug_example.c` -/

namespace debug_example

/-- `INT_MAX` and `INT_MIN` of a 32-bit `int`. -/
def INT_MAX : Int := 2147483647
def INT_MIN : Int := -2147483648

/-- The value an `int` takes when a result is reduced modulo `2 ^ 32` (two's complement). -/
def wrap32 (x : Int) : Int := (x + 2 ^ 31) % 2 ^ 32 - 2 ^ 31

/-- `int factorial(int n)` (lines 8–14). -/
def factorial (n : Int) : Int :=
  if n ≤ 1 then 1
  else wrap32 (n * factorial (n - 1))
termination_by n.toNat
decreasing_by omega

/-- `int numbers[] = {1, 2, 3, 4, 5};` (line 18). -/
def numbers : List Int := [1, 2, 3, 4, 5]

/-- `int size = sizeof(numbers) / sizeof(numbers[0]);` (line 19). -/
def size : Nat := numbers.length

/-- State of a run of `main`: the text printed so far and the subscripts with which
`numbers` has been read so far. -/
structure Run where
  out : String
  reads : List Nat
deriving DecidableEq, Repr

/-- `printf`, with the formatted text as argument. -/
def printf (s : String) (r : Run) : Run := { r with out := r.out ++ s }

/-- The `for` loop of lines 23–27 from counter value `i` on.  `strict = false` is the loop as
written (`i <= size`); `strict = true` is the loop of the comment on line 23 (`i < size`).
The subscript `numbers[i]` is checked: outside the array it is a fault. -/
def loop (strict : Bool) (i : Nat) (r : Run) : Run × Except Fault Unit :=
  if (if strict then i < size else i ≤ size) then
    let r := { r with reads := r.reads ++ [i] }
    match numbers[i]? with
    | none => (r, .error (.outOfRange i))
    | some num =>
      let fact := factorial num
      loop strict (i + 1)
        (printf ("factorial(" ++ toString num ++ ") = " ++ toString fact ++ "\n") r)
  else (r, .ok ())
termination_by size + 1 - i
decreasing_by all_goals (split at * <;> omega)

/-- The body of `main` (lines 16–30), with the loop condition chosen by `strict`. -/
def main_with (strict : Bool) : Run × Except Fault Int :=
  let r := printf "Factorial calculations:\n" ⟨"", []⟩
  match loop strict 0 r with
  | (r, .ok ()) => (r, .ok 0)
  | (r, .error f) => (r, .error f)

/-- `int main(void)` as written. -/
def main : Run × Except Fault Int := main_with false

/-- `main` with the loop condition `i < size`. -/
def main_fixed : Run × Except Fault Int := main_with true

end debug_example

/-! ## `setup_test.c` -/

namespace setup_test

/-- What a run receives from its platform. -/
structure Env where
  /-- The `sqrt` of the math library. -/
  sqrt : Double → Double
  /-- Whether `malloc` finds storage (`false`: it returns a null pointer). -/
  malloc_ok : Bool
  /-- The indeterminate bytes found in freshly allocated storage. -/
  junk : Nat → Nat
  /-- The predefined macro `__VERSION__`, a string literal. -/
  VERSION : String
  /-- The predefined macro `__STDC_VERSION__`, an integer constant of type `long`. -/
  STDC_VERSION : Int

/-- A live heap block: its address and its bytes (the length of `bytes` is its size). -/
structure Block where
  addr : Nat
  bytes : List Nat
deriving DecidableEq, Repr

/-- The heap operations a run performs, in order. -/
inductive Event
  /-- `malloc size` returned `ret` (`0` is the null pointer). -/
  | malloc (size : Nat) (ret : Nat)
  /-- `len` bytes were written at the start of block `p`. -/
  | store (p : Nat) (len : Nat)
  /-- Block `p` was read. -/
  | load (p : Nat)
  /-- `free` was called with `p`: block `p` was released, or `p` is the null pointer `0`. -/
  | free (p : Nat)
deriving DecidableEq, Repr

/-- State of a run: the text on standard output, the live heap blocks, and the heap
operations performed so far. -/
structure World where
  out : String
  heap : List Block
  trace : List Event
deriving DecidableEq, Repr

/-- `#define TEST_PASSED "✓ PASSED"` (line 12). -/
def TEST_PASSED : String := "✓ PASSED"

/-- `#define TEST_FAILED "✗ FAILED"` (line 13). -/
def TEST_FAILED : String := "✗ FAILED"

/-! ### Library calls -/

/-- `printf`, with the formatted text as argument: appends it to standard output. -/
def printf (s : String) (w : World) : World := { w with out := w.out ++ s }

/-- The array of a string literal: the bytes of its UTF-8 encoding and a terminating NUL. -/
def lit (s : String) : List Nat :=
  (s.toList.flatMap String.utf8EncodeChar).map UInt8.toNat ++ [0]

/-- An address above every live block (and not null). -/
def freshAddr (h : List Block) : Nat :=
  (h.map fun b => b.addr + b.bytes.length).foldr max 0 + 1

/-- `malloc(size)`: on success a new block of `size` indeterminate bytes at a fresh address,
otherwise the null pointer `0` and an unchanged heap. -/
def malloc (env : Env) (size : Nat) (w : World) : Nat × World :=
  if env.malloc_ok then
    let p := freshAddr w.heap
    (p, { w with
            heap := ⟨p, (List.range size).map fun i => env.junk i % 256⟩ :: w.heap
            trace := w.trace ++ [.malloc size p] })
  else
    (0, { w with trace := w.trace ++ [.malloc size 0] })

/-- The live block at address `p`, if any. -/
def findBlock (h : List Block) (p : Nat) : Option Block := h.find? fun b => b.addr == p

/-- Replaces the bytes of the (first) block at address `p`. -/
def setBlock : List Block → Nat → List Nat → List Block
  | [], _, _ => []
  | b :: h, p, bs => if b.addr == p then ⟨p, bs⟩ :: h else b :: setBlock h p bs

/-- Length of the C string held in an array: the index of its first NUL, if it has one. -/
def strlen (s : List Nat) : Option Nat :=
  let i := s.findIdx fun c => c == 0
  if i < s.length then some i else none

/-- `strcpy(dst, src)`: copies the string `src`, its NUL included, to the start of block
`dst`.  Faults when `dst` is not a live block or the block is too short. -/
def strcpy (dst : Nat) (src : List Nat) (w : World) : Except Fault World :=
  match findBlock w.heap dst, strlen src with
  | some b, some n =>
    if n + 1 ≤ b.bytes.length then
      .ok { w with
              heap := setBlock w.heap dst (src.take (n + 1) ++ b.bytes.drop (n + 1))
              trace := w.trace ++ [.store dst (n + 1)] }
    else .error (.badAccess dst)
  | _, _ => .error (.badAccess dst)

/-- The comparison loop of `strcmp` on two arrays: the difference of the first two bytes
that differ, `0` when a NUL is reached first, `none` when an array ends before that. -/
def cmpBytes : List Nat → List Nat → Option Int
  | a :: as, b :: bs =>
    if a ≠ b then some ((a : Int) - (b : Int))
    else if a = 0 then some 0
    else cmpBytes as bs
  | _, _ => none

/-- `strcmp(p, s)` with the string in block `p` as first argument, the comparison being
carried out by `cmp`.  Faults when `p` is not a live block or the comparison runs off an
array. -/
def strcmpBy (cmp : List Nat → List Nat → Option Int) (p : Nat) (s : List Nat) (w : World) :
    Except Fault (Int × World) :=
  match findBlock w.heap p with
  | some b =>
    match cmp b.bytes s with
    | some c => .ok (c, { w with trace := w.trace ++ [.load p] })
    | none => .error (.badAccess p)
  | none => .error (.badAccess p)

/-- `free(p)`: leaves the heap alone for a null pointer, releases the live block at `p`, and
faults for any other pointer (such as one already released).  The call is recorded in the
trace in both non-faulting cases. -/
def free (p : Nat) (w : World) : Except Fault World :=
  if p = 0 then .ok { w with trace := w.trace ++ [.free 0] }
  else if (findBlock w.heap p).isSome then
    .ok { w with
            heap := w.heap.eraseP fun b => b.addr == p
            trace := w.trace ++ [.free p] }
  else .error (.badFree p)

/-- `assert(c)`: aborts the process when `c` is false. -/
def assert (c : Bool) (w : World) : Except Fault World :=
  if c then .ok w else .error .abort

/-! ### The program -/

/-- `void test_basic_io(void)` (lines 15–19). -/
def test_basic_io (w : World) : World :=
  let w := printf "Testing basic I/O... " w
  printf (TEST_PASSED ++ "\n") w

/-- `void test_math_library(void)` (lines 21–30). -/
def test_math_library (env : Env) (w : World) : World :=
  let w := printf "Testing math library... " w
  let result := env.sqrt lit_16_0
  if Double.eq result lit_4_0 then
    printf (TEST_PASSED ++ "\n") w
  else
    printf (TEST_FAILED ++ "\n") w

/-- The body of `test_memory_allocation` (lines 32–47), the comparison performed inside
`strcmp` being `cmp`. -/
def test_memory_allocation_by (cmp : List Nat → List Nat → Option Int) (env : Env)
    (w : World) : Except Fault World :=
  let w := printf "Testing memory allocation... " w
  let (buffer, w) := malloc env 100 w
  if buffer ≠ 0 then do
    let w ← strcpy buffer (lit "Memory test") w
    let (c, w) ← strcmpBy cmp buffer (lit "Memory test") w
    let w :=
      if c == 0 then
        printf (TEST_PASSED ++ "\n") w
      else
        printf (TEST_FAILED ++ "\n") w
    free buffer w
  else
    .ok (printf (TEST_FAILED ++ "\n") w)

/-- `void test_memory_allocation(void)` (lines 32–47). -/
def test_memory_allocation (env : Env) (w : World) : Except Fault World :=
  test_memory_allocation_by cmpBytes env w

/-- `void test_assertions(void)` (lines 49–54). -/
def test_assertions (w : World) : Except Fault World := do
  let w := printf "Testing assertions... " w
  let w ← assert ((1 : Int) == 1) w
  .ok (printf (TEST_PASSED ++ "\n") w)

/-- `int main(void)` (lines 56–71): the exit status and the final state. -/
def main (env : Env) (w : World) : Except Fault (Int × World) := do
  let w := printf "=== C Development Environment Test ===\n\n" w
  let w := test_basic_io w
  let w := test_math_library env w
  let w ← test_memory_allocation env w
  let w ← test_assertions w
  let w := printf "\n=== Test Summary ===\n" w
  let w := printf "If all tests show PASSED, your environment is ready!\n" w
  let w := printf ("Compiler: " ++ env.VERSION ++ "\n") w
  let w := printf ("C Standard: " ++ toString env.STDC_VERSION ++ "\n") w
  .ok (0, w)

/-! ### Reading a trace -/

/-- The blocks a sequence of heap operations acquired: the non-null results of `malloc`. -/
def acquired : List Event → List Nat
  | [] => []
  | .malloc _ p :: t => if p = 0 then acquired t else p :: acquired t
  | _ :: t => acquired t

/-- The pointers a sequence of heap operations passed to `free`, one entry per call. -/
def released : List Event → List Nat
  | [] => []
  | .free p :: t => p :: released t
  | _ :: t => released t

/-- Whether an operation reads or writes block `p`. -/
def touches (p : Nat) : Event → Bool
  | .store q _ => q == p
  | .load q => q == p
  | _ => false

/-- Whether some block is read or written after it has been released. -/
def accessAfterFree : List Event → Bool
  | [] => false
  | .free p :: t => t.any (touches p) || accessAfterFree t
  | _ :: t => accessAfterFree t

/-- Whether an operation is a write, a read or a call of `free` (with a block or with the
null pointer): every operation but `malloc`. -/
def usesBlock : Event → Bool
  | .malloc _ _ => false
  | _ => true

/-- A run `r` started in state `w` returned normally, left the set of live blocks as it
was, and its heap operations `evs` released every block they acquired exactly once,
released nothing else, and touched no block after its release. -/
def ReleasesAll (w : World) (r : Except Fault World) : Prop :=
  ∃ w' evs, r = .ok w' ∧ w'.heap = w.heap ∧ w'.trace = w.trace ++ evs ∧
    released evs = acquired evs ∧ (acquired evs).Nodup ∧ accessAfterFree evs = false

end setup_test

/-! # Properties -/

/-! ## Lemmas on `setup_test.c` -/

namespace setup_test

/-- Comparison with the literal `4.0` holds for exactly one bit pattern. -/
theorem Double_eq_lit_4_0 (r : Double) :
    Double.eq r lit_4_0 = true ↔ r.bits % 2 ^ 64 = 0x4010000000000000 := by
  have h4n : lit_4_0.isNaN = false := by decide
  have h4z : lit_4_0.isZero = false := by decide
  have h4b : lit_4_0.bits % 2 ^ 64 = 0x4010000000000000 := by decide
  simp only [Double.eq, h4n, h4z, h4b, Bool.and_false, Bool.false_or, Bool.not_false,
    Bool.and_true, Bool.and_eq_true, Bool.not_eq_true', beq_iff_eq]
  constructor
  · exact fun h => h.2
  · intro h
    refine ⟨?_, h⟩
    have he : r.expo = 1025 := by
      simp only [Double.expo]
      norm_num at h ⊢
      omega
    simp [Double.isNaN, he]

theorem test_basic_io_eq (w : World) :
    test_basic_io w = { w with out := w.out ++ "Testing basic I/O... ✓ PASSED\n" } := by
  simp only [test_basic_io, printf, TEST_PASSED, String.append_assoc]
  rfl

theorem test_math_library_eq (env : Env) (w : World) :
    test_math_library env w =
      { w with out := w.out ++ (if Double.eq (env.sqrt lit_16_0) lit_4_0
          then "Testing math library... ✓ PASSED\n"
          else "Testing math library... ✗ FAILED\n") } := by
  simp only [test_math_library, printf, TEST_PASSED, TEST_FAILED, String.append_assoc]
  split <;> rfl

theorem test_assertions_eq (w : World) :
    test_assertions w = .ok { w with out := w.out ++ "Testing assertions... ✓ PASSED\n" } := by
  simp only [test_assertions, assert, printf, TEST_PASSED, String.append_assoc, bind,
    Except.bind, beq_self_eq_true, if_true]
  rfl

theorem lit_memory_test :
    lit "Memory test" = [77, 101, 109, 111, 114, 121, 32, 116, 101, 115, 116, 0] := by decide

theorem freshAddr_ne_zero (h : List Block) : freshAddr h ≠ 0 := by
  simp [freshAddr]

theorem cmpBytes_memory_test (rest : List Nat) :
    cmpBytes (lit "Memory test" ++ rest) (lit "Memory test") = some 0 := by
  rw [lit_memory_test]
  simp [cmpBytes]

theorem malloc_ok_eq (env : Env) (size : Nat) (w : World) (h : env.malloc_ok = true) :
    malloc env size w = (freshAddr w.heap,
      { w with
          heap := ⟨freshAddr w.heap, (List.range size).map fun i => env.junk i % 256⟩ :: w.heap
          trace := w.trace ++ [.malloc size (freshAddr w.heap)] }) := by
  simp [malloc, h]

theorem malloc_null_eq (env : Env) (size : Nat) (w : World) (h : env.malloc_ok = false) :
    malloc env size w = (0, { w with trace := w.trace ++ [.malloc size 0] }) := by
  simp [malloc, h]

theorem strcpy_head (p : Nat) (bs : List Nat) (o : String) (h : List Block) (t : List Event)
    (hlen : 12 ≤ bs.length) :
    strcpy p (lit "Memory test") ⟨o, ⟨p, bs⟩ :: h, t⟩ =
      .ok ⟨o, ⟨p, lit "Memory test" ++ bs.drop 12⟩ :: h, t ++ [.store p 12]⟩ := by
  have hl : strlen (lit "Memory test") = some 11 := by decide
  have htake : (lit "Memory test").take 12 = lit "Memory test" := by decide
  simp only [strcpy, findBlock, List.find?, beq_self_eq_true, hl]
  simp [hlen, setBlock, htake]

theorem strcmpBy_head (cmp : List Nat → List Nat → Option Int) (p : Nat) (bs s : List Nat)
    (o : String) (h : List Block) (t : List Event) (c : Int) (hc : cmp bs s = some c) :
    strcmpBy cmp p s ⟨o, ⟨p, bs⟩ :: h, t⟩ = .ok (c, ⟨o, ⟨p, bs⟩ :: h, t ++ [.load p]⟩) := by
  simp [strcmpBy, findBlock, List.find?, hc]

theorem free_head (p : Nat) (bs : List Nat) (o : String) (h : List Block) (t : List Event)
    (hp : p ≠ 0) :
    free p ⟨o, ⟨p, bs⟩ :: h, t⟩ = .ok ⟨o, h, t ++ [.free p]⟩ := by
  simp [free, findBlock, List.find?, hp]

/-- The check when `malloc` succeeds and the comparison yields `c`. -/
theorem test_memory_allocation_by_ok (cmp : List Nat → List Nat → Option Int) (env : Env)
    (w : World) (h : env.malloc_ok = true) (c : Int)
    (hc : cmp (lit "Memory test" ++ ((List.range 100).map fun i => env.junk i % 256).drop 12)
      (lit "Memory test") = some c) :
    test_memory_allocation_by cmp env w = .ok
      { out := w.out ++ (if c == 0 then "Testing memory allocation... ✓ PASSED\n"
          else "Testing memory allocation... ✗ FAILED\n")
        heap := w.heap
        trace := w.trace ++ [.malloc 100 (freshAddr w.heap), .store (freshAddr w.heap) 12,
          .load (freshAddr w.heap), .free (freshAddr w.heap)] } := by
  simp only [test_memory_allocation_by, malloc_ok_eq env 100 _ h, printf, ne_eq,
    freshAddr_ne_zero, not_false_eq_true, if_true, bind, Except.bind]
  rw [strcpy_head _ _ _ _ _ (by simp)]
  simp only []
  rw [strcmpBy_head cmp _ _ _ _ _ _ c hc]
  simp only []
  split
  · rw [free_head _ _ _ _ _ (freshAddr_ne_zero _)]
    simp [TEST_PASSED, String.append_assoc]
  · rw [free_head _ _ _ _ _ (freshAddr_ne_zero _)]
    simp [TEST_FAILED, String.append_assoc]

/-- The check when `malloc` returns the null pointer. -/
theorem test_memory_allocation_by_null (cmp : List Nat → List Nat → Option Int) (env : Env)
    (w : World) (h : env.malloc_ok = false) :
    test_memory_allocation_by cmp env w = .ok
      { out := w.out ++ "Testing memory allocation... ✗ FAILED\n"
        heap := w.heap
        trace := w.trace ++ [.malloc 100 0] } := by
  simp only [test_memory_allocation_by, malloc_null_eq env 100 _ h, printf, ne_eq,
    not_true_eq_false, if_false, TEST_FAILED, String.append_assoc]
  rfl

/-- The allocation check, for both outcomes of `malloc`. -/
theorem test_memory_allocation_eq (env : Env) (w : World) :
    test_memory_allocation env w = .ok
      { out := w.out ++ (if env.malloc_ok then "Testing memory allocation... ✓ PASSED\n"
          else "Testing memory allocation... ✗ FAILED\n")
        heap := w.heap
        trace := w.trace ++ (if env.malloc_ok then
            [.malloc 100 (freshAddr w.heap), .store (freshAddr w.heap) 12,
              .load (freshAddr w.heap), .free (freshAddr w.heap)]
          else [.malloc 100 0]) } := by
  cases h : env.malloc_ok
  · simpa using test_memory_allocation_by_null cmpBytes env w h
  · simpa using test_memory_allocation_by_ok cmpBytes env w h 0 (cmpBytes_memory_test _)

/-- The whole run of `main`. -/
theorem main_eq (env : Env) (w : World) :
    main env w = .ok (0,
      { out := w.out ++ "=== C Development Environment Test ===\n\n"
          ++ "Testing basic I/O... ✓ PASSED\n"
          ++ (if Double.eq (env.sqrt lit_16_0) lit_4_0
              then "Testing math library... ✓ PASSED\n"
              else "Testing math library... ✗ FAILED\n")
          ++ (if env.malloc_ok then "Testing memory allocation... ✓ PASSED\n"
              else "Testing memory allocation... ✗ FAILED\n")
          ++ "Testing assertions... ✓ PASSED\n"
          ++ "\n=== Test Summary ===\n"
          ++ "If all tests show PASSED, your environment is ready!\n"
          ++ ("Compiler: " ++ env.VERSION ++ "\n")
          ++ ("C Standard: " ++ toString env.STDC_VERSION ++ "\n")
        heap := w.heap
        trace := w.trace ++ (if env.malloc_ok then
            [.malloc 100 (freshAddr w.heap), .store (freshAddr w.heap) 12,
              .load (freshAddr w.heap), .free (freshAddr w.heap)]
          else [.malloc 100 0]) }) := by
  simp only [main, printf, test_basic_io_eq, test_math_library_eq, test_memory_allocation_eq,
    test_assertions_eq, bind, Except.bind]

end setup_test

/-! ## The square root -/

namespace IEC60559

set_option maxRecDepth 100000 in
/-- Sample values of the correctly rounded square root: `√4 = 2`, `√2` rounded, `√(+0) = +0`,
`√(-0) = -0`, the invalid `√(-1)`, `√(+∞) = +∞` and the least subnormal. -/
theorem sqrt_samples :
    sqrt ⟨0x4010000000000000⟩ = ⟨0x4000000000000000⟩ ∧
    sqrt ⟨0x4000000000000000⟩ = ⟨0x3FF6A09E667F3BCD⟩ ∧
    sqrt ⟨0⟩ = ⟨0⟩ ∧
    sqrt ⟨0x8000000000000000⟩ = ⟨0x8000000000000000⟩ ∧
    sqrt ⟨0xBFF0000000000000⟩ = qNaN ∧
    sqrt ⟨0x7FF0000000000000⟩ = ⟨0x7FF0000000000000⟩ ∧
    sqrt ⟨1⟩ = ⟨0x1E60000000000000⟩ := by
  refine ⟨?_, ?_, ?_, ?_, ?_, ?_, ?_⟩ <;> decide

end IEC60559

/-! ## `setup_test.c` -/

namespace setup_test

theorem String_append_left_cancel (o a b : String) (h : o ++ a = o ++ b) : a = b := by
  have hd := congrArg String.data h
  simp only [String.data_append, List.append_cancel_left_eq] at hd
  exact String.ext hd

theorem passed_line_ne_failed_line (o l : String) :
    o ++ (l ++ "✓ PASSED\n") ≠ o ++ (l ++ "✗ FAILED\n") := by
  intro h
  have h := String_append_left_cancel _ _ _ (String_append_left_cancel _ _ _ h)
  exact absurd h (by decide)

/-- C1: when `sqrt(16.0)` compares equal to `4.0` and the allocation succeeds, `main` returns
`0` and the text it writes to standard output is exactly the header, an empty line, the four
status lines (all `✓ PASSED`, none `✗ FAILED`), an empty line, the two lines of the summary,
`Compiler: v` and `C Standard: s`, each terminated by a newline, for every compiler string
`v` and standard version `s`. -/
theorem main_output_all_passed (v : String) (s : Int) (sqrt : Double → Double)
    (junk : Nat → Nat) (w : World) (hsqrt : Double.eq (sqrt lit_16_0) lit_4_0 = true) :
    ∃ w', main { sqrt := sqrt, malloc_ok := true, junk := junk, VERSION := v,
                 STDC_VERSION := s } w = .ok (0, w') ∧
      w'.out = w.out
        ++ "=== C Development Environment Test ===\n"
        ++ "\n"
        ++ "Testing basic I/O... ✓ PASSED\n"
        ++ "Testing math library... ✓ PASSED\n"
        ++ "Testing memory allocation... ✓ PASSED\n"
        ++ "Testing assertions... ✓ PASSED\n"
        ++ "\n"
        ++ "=== Test Summary ===\n"
        ++ "If all tests show PASSED, your environment is ready!\n"
        ++ "Compiler: " ++ v ++ "\n"
        ++ "C Standard: " ++ toString s ++ "\n" := by
  refine ⟨_, main_eq _ w, ?_⟩
  simp only [hsqrt, if_true, String.append_assoc]
  rfl

/-- Witness of C1: the run with the correctly rounded `sqrt`, from an empty state. -/
theorem main_output_all_passed_witness :
    Double.eq (IEC60559.sqrt lit_16_0) lit_4_0 = true ∧
    ∃ w', main { sqrt := IEC60559.sqrt, malloc_ok := true, junk := fun _ => 170,
                 VERSION := "13.2.0", STDC_VERSION := 201710 } ⟨"", [], []⟩ = .ok (0, w') ∧
      w'.out = ""
        ++ "=== C Development Environment Test ===\n"
        ++ "\n"
        ++ "Testing basic I/O... ✓ PASSED\n"
        ++ "Testing math library... ✓ PASSED\n"
        ++ "Testing memory allocation... ✓ PASSED\n"
        ++ "Testing assertions... ✓ PASSED\n"
        ++ "\n"
        ++ "=== Test Summary ===\n"
        ++ "If all tests show PASSED, your environment is ready!\n"
        ++ "Compiler: " ++ "13.2.0" ++ "\n"
        ++ "C Standard: " ++ toString (201710 : Int) ++ "\n" :=
  ⟨by decide,
    main_output_all_passed "13.2.0" 201710 IEC60559.sqrt (fun _ => 170) ⟨"", [], []⟩ (by decide)⟩

/-- C2: for every `sqrt`, every allocation outcome and every starting state, `main` runs to
its end and returns `0`, and its output ends with the summary: an empty line,
`=== Test Summary ===`, the "environment is ready" line and the two metadata lines.  Neither
the exit status nor this text depends on the outcome of a check. -/
theorem main_always_exits_zero (env : Env) (w : World) :
    ∃ w' checks, main env w = .ok (0, w') ∧
      w'.out = w.out ++ checks
        ++ "\n"
        ++ "=== Test Summary ===\n"
        ++ "If all tests show PASSED, your environment is ready!\n"
        ++ "Compiler: " ++ env.VERSION ++ "\n"
        ++ "C Standard: " ++ toString env.STDC_VERSION ++ "\n" := by
  refine ⟨_, "=== C Development Environment Test ===\n\n"
      ++ "Testing basic I/O... ✓ PASSED\n"
      ++ (if Double.eq (env.sqrt lit_16_0) lit_4_0
          then "Testing math library... ✓ PASSED\n"
          else "Testing math library... ✗ FAILED\n")
      ++ (if env.malloc_ok then "Testing memory allocation... ✓ PASSED\n"
          else "Testing memory allocation... ✗ FAILED\n")
      ++ "Testing assertions... ✓ PASSED\n", main_eq env w, ?_⟩
  simp only [String.append_assoc]
  rfl

/-- C3: in every run the output between the header and the summary is four status lines in
the order basic I/O, math library, memory allocation, assertions.  The status of the math
line is determined by the value `sqrt(16.0)` alone, that of the memory line by the
allocation outcome alone, and the other two lines read `✓ PASSED` whatever these are. -/
theorem main_checks_independent (env : Env) (w : World) :
    ∃ w', main env w = .ok (0, w') ∧
      w'.out = w.out
        ++ "=== C Development Environment Test ===\n"
        ++ "\n"
        ++ "Testing basic I/O... ✓ PASSED\n"
        ++ "Testing math library... "
          ++ (if Double.eq (env.sqrt lit_16_0) lit_4_0 then "✓ PASSED" else "✗ FAILED") ++ "\n"
        ++ "Testing memory allocation... "
          ++ (if env.malloc_ok then "✓ PASSED" else "✗ FAILED") ++ "\n"
        ++ "Testing assertions... ✓ PASSED\n"
        ++ "\n"
        ++ "=== Test Summary ===\n"
        ++ "If all tests show PASSED, your environment is ready!\n"
        ++ "Compiler: " ++ env.VERSION ++ "\n"
        ++ "C Standard: " ++ toString env.STDC_VERSION ++ "\n" := by
  refine ⟨_, main_eq env w, ?_⟩
  cases Double.eq (env.sqrt lit_16_0) lit_4_0 <;> cases env.malloc_ok <;>
    simp only [if_true, if_false, Bool.false_eq_true, String.append_assoc] <;> rfl

/-- C4: when the allocation succeeds, the check is this sequence of steps: `malloc` returns
a non-null block of 100 bytes; `strcpy` writes the 12 bytes of the literal `"Memory test"` (11
characters and the NUL) into it without a fault; the block then starts with exactly these
bytes; `strcmp` of the block with the literal returns `0`, whatever the block held before;
`✓ PASSED` is printed and the block is released.  The status printed is the one the
comparison of the copied block with the literal selects: `✓ PASSED` for the result `0`,
`✗ FAILED` for any other.  So the check prints `✓ PASSED` exactly when the allocation
succeeded, and when it prints `✗ FAILED` no comparison has been performed: the `✗ FAILED` of
the mismatch branch is never printed. -/
theorem test_memory_allocation_passed_iff (env : Env) (w : World) :
    (env.malloc_ok = true →
      ∃ p w1 w2 w3 w4 b,
        malloc env 100 (printf "Testing memory allocation... " w) = (p, w1) ∧ p ≠ 0 ∧
        (lit "Memory test").length = 12 ∧
        strcpy p (lit "Memory test") w1 = .ok w2 ∧
        findBlock w2.heap p = some b ∧ b.bytes.length = 100 ∧
        b.bytes.take 12 = lit "Memory test" ∧
        strcmpBy cmpBytes p (lit "Memory test") w2 = .ok (0, w3) ∧
        free p (printf (TEST_PASSED ++ "\n") w3) = .ok w4 ∧
        test_memory_allocation env w = .ok w4 ∧
        w4.out = w.out ++ "Testing memory allocation... ✓ PASSED\n" ∧
        w4.heap = w.heap ∧
        w4.trace = w.trace ++ [.malloc 100 p, .store p 12, .load p, .free p]) ∧
    (env.malloc_ok = true →
      ∀ (cmp : List Nat → List Nat → Option Int) (c : Int),
        cmp (lit "Memory test" ++ ((List.range 100).map fun i => env.junk i % 256).drop 12)
          (lit "Memory test") = some c →
        ∃ w', test_memory_allocation_by cmp env w = .ok w' ∧
          w'.out = w.out ++ (if c = 0 then "Testing memory allocation... ✓ PASSED\n"
            else "Testing memory allocation... ✗ FAILED\n")) ∧
    ∃ w', test_memory_allocation env w = .ok w' ∧
      (env.malloc_ok = true → w'.out = w.out ++ "Testing memory allocation... ✓ PASSED\n") ∧
      (w'.out = w.out ++ "Testing memory allocation... ✓ PASSED\n" ↔ env.malloc_ok = true) ∧
      (w'.out = w.out ++ "Testing memory allocation... ✗ FAILED\n" ↔ env.malloc_ok = false) ∧
      (w'.out = w.out ++ "Testing memory allocation... ✗ FAILED\n" →
        w'.trace = w.trace ++ [.malloc 100 0]) := by
  have hne := passed_line_ne_failed_line w.out "Testing memory allocation... "
  refine ⟨fun h => ?_, fun h cmp c hc => ?_, ?_⟩
  · refine ⟨_, _, _, _, _, ⟨freshAddr w.heap, lit "Memory test" ++
        ((List.range 100).map fun i => env.junk i % 256).drop 12⟩,
      malloc_ok_eq env 100 _ h, freshAddr_ne_zero _, by decide,
      strcpy_head _ _ _ _ _ (by simp), ?_, ?_, ?_,
      strcmpBy_head cmpBytes _ _ _ _ _ _ 0 (cmpBytes_memory_test _),
      free_head _ _ _ _ _ (freshAddr_ne_zero _), ?_, ?_, rfl, ?_⟩
    · simp [findBlock, List.find?, printf]
    · simp [lit_memory_test]
    · simp [lit_memory_test]
    · rw [test_memory_allocation_eq]
      simp only [h, if_true, printf, TEST_PASSED, String.append_assoc, List.append_assoc,
        List.singleton_append, List.cons_append, List.nil_append]
      rfl
    · simp only [printf, TEST_PASSED, String.append_assoc]
      rfl
    · simp [printf]
  · refine ⟨_, test_memory_allocation_by_ok cmp env w h c hc, ?_⟩
    simp
  · refine ⟨_, test_memory_allocation_eq env w, ?_⟩
    cases h : env.malloc_ok
    · simp only [Bool.false_eq_true, if_false, false_implies, iff_false, iff_true, true_and,
        implies_true, and_true]
      exact fun h => hne h.symm
    · simp only [if_true, true_implies, iff_true, true_and, Bool.true_eq_false, iff_false]
      exact ⟨hne, fun h => absurd h hne⟩

/-- Witness of C4: a successful allocation next to a live block. -/
theorem test_memory_allocation_passed_iff_witness :
    ∃ p w1 w2 w3 w4 b,
      malloc ⟨IEC60559.sqrt, true, fun i => 7 * i + 1, "13.2.0", 201710⟩ 100
        (printf "Testing memory allocation... " ⟨"", [⟨8, [1, 2, 3]⟩], []⟩) = (p, w1) ∧ p ≠ 0 ∧
      (lit "Memory test").length = 12 ∧
      strcpy p (lit "Memory test") w1 = .ok w2 ∧
      findBlock w2.heap p = some b ∧ b.bytes.length = 100 ∧
      b.bytes.take 12 = lit "Memory test" ∧
      strcmpBy cmpBytes p (lit "Memory test") w2 = .ok (0, w3) ∧
      free p (printf (TEST_PASSED ++ "\n") w3) = .ok w4 ∧
      test_memory_allocation ⟨IEC60559.sqrt, true, fun i => 7 * i + 1, "13.2.0", 201710⟩
        ⟨"", [⟨8, [1, 2, 3]⟩], []⟩ = .ok w4 ∧
      w4.out = "" ++ "Testing memory allocation... ✓ PASSED\n" ∧
      w4.heap = [⟨8, [1, 2, 3]⟩] ∧
      w4.trace = [] ++ [.malloc 100 p, .store p 12, .load p, .free p] :=
  (test_memory_allocation_passed_iff ⟨IEC60559.sqrt, true, fun i => 7 * i + 1, "13.2.0", 201710⟩
    ⟨"", [⟨8, [1, 2, 3]⟩], []⟩).1 rfl

/-- C5: the allocation check leaves the set of live blocks as it found it, for both
allocation outcomes and for every result the comparison may return: it returns normally,
the blocks it released are exactly the blocks it acquired, each once, and no block is read
or written after its release.  The heap operations are, in order, `malloc`, the write, the
read and `free` of the new block when the allocation succeeds, and the `malloc` alone when it
fails. -/
theorem test_memory_allocation_releases (env : Env) (w : World) :
    (∀ cmp : List Nat → List Nat → Int,
      ReleasesAll w (test_memory_allocation_by (fun a b => some (cmp a b)) env w)) ∧
    ReleasesAll w (test_memory_allocation env w) ∧
    ∃ w', test_memory_allocation env w = .ok w' ∧ w'.heap = w.heap ∧
      w'.trace = w.trace ++ (if env.malloc_ok then
          [.malloc 100 (freshAddr w.heap), .store (freshAddr w.heap) 12,
            .load (freshAddr w.heap), .free (freshAddr w.heap)]
        else [.malloc 100 0]) := by
  have hbal : ∀ o : String, ReleasesAll w (.ok
      { out := o, heap := w.heap
        trace := w.trace ++ [.malloc 100 (freshAddr w.heap), .store (freshAddr w.heap) 12,
          .load (freshAddr w.heap), .free (freshAddr w.heap)] }) := fun o =>
    ⟨_, _, rfl, rfl, rfl, by simp [released, acquired, freshAddr_ne_zero],
      by simp [acquired, freshAddr_ne_zero], by simp [accessAfterFree, touches]⟩
  have hnull : ∀ o : String, ReleasesAll w (.ok
      { out := o, heap := w.heap, trace := w.trace ++ [.malloc 100 0] }) := fun o =>
    ⟨_, _, rfl, rfl, rfl, by simp [released, acquired], by simp [acquired],
      by simp [accessAfterFree]⟩
  refine ⟨fun cmp => ?_, ?_, _, test_memory_allocation_eq env w, rfl, rfl⟩
  · cases h : env.malloc_ok
    · rw [test_memory_allocation_by_null _ env w h]
      exact hnull _
    · rw [test_memory_allocation_by_ok _ env w h _ rfl]
      exact hbal _
  · rw [test_memory_allocation_eq]
    cases h : env.malloc_ok
    · exact hnull _
    · exact hbal _

/-- C6: when `malloc` returns the null pointer, the allocation check prints exactly
`Testing memory allocation... ✗ FAILED`, performs no heap operation besides that `malloc` (no
write, no comparison and no call of `free`, which the trace would record for the null
pointer too, so nothing is applied to the null pointer) and returns normally; `main` then still prints the assertions line and the summary and returns `0`. -/
theorem test_memory_allocation_null_handled (env : Env) (w : World)
    (hnull : env.malloc_ok = false) :
    test_memory_allocation env w = .ok
      { out := w.out ++ "Testing memory allocation... ✗ FAILED\n"
        heap := w.heap
        trace := w.trace ++ [.malloc 100 0] } ∧
    (∃ w1 evs, test_memory_allocation env w = .ok w1 ∧ w1.trace = w.trace ++ evs ∧
      evs = [.malloc 100 0] ∧ evs.any usesBlock = false ∧ released evs = [] ∧
      (∀ p, Event.free p ∉ evs) ∧ w1.heap = w.heap) ∧
    ∃ w' before, main env w = .ok (0, w') ∧
      w'.trace = w.trace ++ [.malloc 100 0] ∧
      w'.out = w.out ++ before
        ++ "Testing memory allocation... ✗ FAILED\n"
        ++ "Testing assertions... ✓ PASSED\n"
        ++ "\n"
        ++ "=== Test Summary ===\n"
        ++ "If all tests show PASSED, your environment is ready!\n"
        ++ "Compiler: " ++ env.VERSION ++ "\n"
        ++ "C Standard: " ++ toString env.STDC_VERSION ++ "\n" := by
  refine ⟨test_memory_allocation_by_null cmpBytes env w hnull,
    ⟨_, _, test_memory_allocation_by_null cmpBytes env w hnull, rfl, rfl, by decide, rfl,
      by simp, rfl⟩, _,
    "=== C Development Environment Test ===\n\n"
      ++ "Testing basic I/O... ✓ PASSED\n"
      ++ (if Double.eq (env.sqrt lit_16_0) lit_4_0
          then "Testing math library... ✓ PASSED\n"
          else "Testing math library... ✗ FAILED\n"), main_eq env w, ?_, ?_⟩
  · simp [hnull]
  · simp only [hnull, Bool.false_eq_true, if_false, String.append_assoc]
    rfl

/-- Witness of C6: a run in which `malloc` fails. -/
theorem test_memory_allocation_null_handled_witness :
    test_memory_allocation ⟨IEC60559.sqrt, false, fun _ => 0, "13.2.0", 201710⟩ ⟨"", [], []⟩ =
      .ok
        { out := "" ++ "Testing memory allocation... ✗ FAILED\n"
          heap := []
          trace := [] ++ [.malloc 100 0] } :=
  (test_memory_allocation_null_handled ⟨IEC60559.sqrt, false, fun _ => 0, "13.2.0", 201710⟩
    ⟨"", [], []⟩ rfl).1

/-- C7: the correctly rounded square root of `16.0` is `4.0` exactly, and with it the math
check prints `Testing math library... ✓ PASSED`.  For every value `r` that `sqrt(16.0)`
returns, the check prints the `✓ PASSED` line when `r == 4.0` and the `✗ FAILED` line
otherwise, never both; `r == 4.0` holds for the bit pattern of `4.0` and for no other. -/
theorem test_math_library_exact (env : Env) (w : World) :
    IEC60559.sqrt lit_16_0 = lit_4_0 ∧
    (env.sqrt = IEC60559.sqrt →
      (test_math_library env w).out = w.out ++ "Testing math library... ✓ PASSED\n") ∧
    (Double.eq (env.sqrt lit_16_0) lit_4_0 = true →
      test_math_library env w =
        { w with out := w.out ++ "Testing math library... ✓ PASSED\n" }) ∧
    (Double.eq (env.sqrt lit_16_0) lit_4_0 = false →
      test_math_library env w =
        { w with out := w.out ++ "Testing math library... ✗ FAILED\n" }) ∧
    (Double.eq (env.sqrt lit_16_0) lit_4_0 = true ↔
      (env.sqrt lit_16_0).bits % 2 ^ 64 = 0x4010000000000000) ∧
    w.out ++ "Testing math library... ✓ PASSED\n" ≠
      w.out ++ "Testing math library... ✗ FAILED\n" := by
  have h16 : IEC60559.sqrt lit_16_0 = lit_4_0 := by decide
  refine ⟨h16, fun h => ?_, fun h => ?_, fun h => ?_, Double_eq_lit_4_0 _,
    passed_line_ne_failed_line w.out "Testing math library... "⟩
  · rw [test_math_library_eq, h, h16]
    rfl
  · rw [test_math_library_eq, h]
    rfl
  · rw [test_math_library_eq, h]
    rfl

/-- Witness of C7: the math check with the correctly rounded `sqrt`. -/
theorem test_math_library_exact_witness :
    (test_math_library ⟨IEC60559.sqrt, true, fun _ => 0, "13.2.0", 201710⟩ ⟨"", [], []⟩).out =
      "" ++ "Testing math library... ✓ PASSED\n" :=
  (test_math_library_exact ⟨IEC60559.sqrt, true, fun _ => 0, "13.2.0", 201710⟩
    ⟨"", [], []⟩).2.1 rfl

/-- C8: the asserted condition `1 == 1` is true, so `assert` lets every run pass; the
assertions check never aborts the process and prints `Testing assertions... ✓ PASSED`. -/
theorem test_assertions_never_aborts (w : World) :
    ((1 : Int) == 1) = true ∧
    (∀ w0 : World, assert ((1 : Int) == 1) w0 = .ok w0) ∧
    test_assertions w ≠ .error .abort ∧
    test_assertions w = .ok { w with out := w.out ++ "Testing assertions... ✓ PASSED\n" } := by
  refine ⟨by decide, fun w0 => rfl, ?_, test_assertions_eq w⟩
  rw [test_assertions_eq]
  exact fun h => nomatch h

end setup_test

/-! ## `debug_example.c` -/

namespace debug_example

theorem factorial_le_one (n : Int) (h : n ≤ 1) : factorial n = 1 := by
  rw [factorial, if_pos h]

theorem factorial_step (n : Int) (h : 1 < n) :
    factorial n = wrap32 (n * factorial (n - 1)) := by
  rw [factorial, if_neg (by omega)]

theorem factorial_2 : factorial 2 = 2 := by
  rw [factorial_step 2 (by decide), show (2 : Int) - 1 = 1 by decide, factorial_le_one 1 (by decide)]
  decide

theorem factorial_3 : factorial 3 = 6 := by
  rw [factorial_step 3 (by decide), show (3 : Int) - 1 = 2 by decide, factorial_2]; decide

theorem factorial_4 : factorial 4 = 24 := by
  rw [factorial_step 4 (by decide), show (4 : Int) - 1 = 3 by decide, factorial_3]; decide

theorem factorial_5 : factorial 5 = 120 := by
  rw [factorial_step 5 (by decide), show (5 : Int) - 1 = 4 by decide, factorial_4]; decide

theorem factorial_6 : factorial 6 = 720 := by
  rw [factorial_step 6 (by decide), show (6 : Int) - 1 = 5 by decide, factorial_5]; decide

theorem factorial_7 : factorial 7 = 5040 := by
  rw [factorial_step 7 (by decide), show (7 : Int) - 1 = 6 by decide, factorial_6]; decide

theorem factorial_8 : factorial 8 = 40320 := by
  rw [factorial_step 8 (by decide), show (8 : Int) - 1 = 7 by decide, factorial_7]; decide

theorem factorial_9 : factorial 9 = 362880 := by
  rw [factorial_step 9 (by decide), show (9 : Int) - 1 = 8 by decide, factorial_8]; decide

theorem factorial_10 : factorial 10 = 3628800 := by
  rw [factorial_step 10 (by decide), show (10 : Int) - 1 = 9 by decide, factorial_9]; decide

theorem factorial_11 : factorial 11 = 39916800 := by
  rw [factorial_step 11 (by decide), show (11 : Int) - 1 = 10 by decide, factorial_10]; decide

theorem factorial_12 : factorial 12 = 479001600 := by
  rw [factorial_step 12 (by decide), show (12 : Int) - 1 = 11 by decide, factorial_11]; decide

theorem factorial_13 : factorial 13 = 1932053504 := by
  rw [factorial_step 13 (by decide), show (13 : Int) - 1 = 12 by decide, factorial_12]; decide

theorem wrap32_range (x : Int) : INT_MIN ≤ wrap32 x ∧ wrap32 x ≤ INT_MAX := by
  simp only [wrap32, INT_MIN, INT_MAX]
  omega

theorem factorial_range (n : Int) : INT_MIN ≤ factorial n ∧ factorial n ≤ INT_MAX := by
  by_cases h : n ≤ 1
  · rw [factorial_le_one n h]; decide
  · rw [factorial_step n (by omega)]; exact wrap32_range _


theorem loop_in_range (strict : Bool) (i : Nat) (r : Run) (num : Int)
    (hc : (if strict then i < size else i ≤ size)) (hn : numbers[i]? = some num) :
    loop strict i r = loop strict (i + 1)
      (printf ("factorial(" ++ toString num ++ ") = " ++ toString (factorial num) ++ "\n")
        { r with reads := r.reads ++ [i] }) := by
  rw [loop, if_pos hc]
  simp only [hn]

theorem loop_out_of_range (strict : Bool) (i : Nat) (r : Run)
    (hc : (if strict then i < size else i ≤ size)) (hn : numbers[i]? = none) :
    loop strict i r = ({ r with reads := r.reads ++ [i] }, .error (.outOfRange i)) := by
  rw [loop, if_pos hc]
  simp only [hn]

theorem loop_exit (strict : Bool) (i : Nat) (r : Run)
    (hc : ¬ (if strict then i < size else i ≤ size)) :
    loop strict i r = (r, .ok ()) := by
  rw [loop, if_neg hc]

theorem loop_five (strict : Bool) (r : Run) :
    loop strict 0 r = loop strict 5
      { out := r.out ++ "factorial(1) = 1\n" ++ "factorial(2) = 2\n" ++ "factorial(3) = 6\n"
          ++ "factorial(4) = 24\n" ++ "factorial(5) = 120\n"
        reads := r.reads ++ [0, 1, 2, 3, 4] } := by
  have hc : ∀ i, i < 5 → (if strict then i < size else i ≤ size) := by
    intro i hi
    have : size = 5 := rfl
    cases strict <;> simp <;> omega
  rw [loop_in_range strict 0 r 1 (hc 0 (by decide)) rfl,
    loop_in_range strict 1 _ 2 (hc 1 (by decide)) rfl,
    loop_in_range strict 2 _ 3 (hc 2 (by decide)) rfl,
    loop_in_range strict 3 _ 4 (hc 3 (by decide)) rfl,
    loop_in_range strict 4 _ 5 (hc 4 (by decide)) rfl,
    factorial_le_one 1 (by decide), factorial_2, factorial_3, factorial_4, factorial_5]
  simp only [printf, String.append_assoc, List.append_assoc, List.singleton_append,
    List.cons_append, List.nil_append]
  rfl

/-- C9: `size` is 5 and the loop `i <= size` of `main` runs its body for `i = 0, …, 5`.  The
first five subscripts are inside `numbers` and print `factorial(1) = 1` … `factorial(5) =
120` in this order; the sixth reads `numbers[5]`, which is outside the array, so the run ends
in the out-of-range fault.  With the condition `i < size` the body runs for `i = 0, …, 4`
only, every subscript is inside the array, and the run returns `0` after the same output. -/
theorem main_indexes_out_of_bounds :
    size = 5 ∧
    main =
      ({ out := "Factorial calculations:\n"
          ++ "factorial(1) = 1\n"
          ++ "factorial(2) = 2\n"
          ++ "factorial(3) = 6\n"
          ++ "factorial(4) = 24\n"
          ++ "factorial(5) = 120\n"
         reads := [0, 1, 2, 3, 4, 5] }, .error (.outOfRange 5)) ∧
    (∀ i ∈ [0, 1, 2, 3, 4], (numbers[i]?).isSome = true) ∧
    numbers[5]? = none ∧
    main_fixed =
      ({ out := "Factorial calculations:\n"
          ++ "factorial(1) = 1\n"
          ++ "factorial(2) = 2\n"
          ++ "factorial(3) = 6\n"
          ++ "factorial(4) = 24\n"
          ++ "factorial(5) = 120\n"
         reads := [0, 1, 2, 3, 4] }, .ok 0) ∧
    (∀ i ∈ main_fixed.1.reads, (numbers[i]?).isSome = true) := by
  have hmain : main = (⟨"Factorial calculations:\n"
      ++ "factorial(1) = 1\n" ++ "factorial(2) = 2\n" ++ "factorial(3) = 6\n"
      ++ "factorial(4) = 24\n" ++ "factorial(5) = 120\n", [0, 1, 2, 3, 4, 5]⟩,
      .error (.outOfRange 5)) := by
    simp only [main, main_with, loop_five,
      loop_out_of_range false 5 _ (by decide) rfl, printf]
    rfl
  have hfixed : main_fixed = (⟨"Factorial calculations:\n"
      ++ "factorial(1) = 1\n" ++ "factorial(2) = 2\n" ++ "factorial(3) = 6\n"
      ++ "factorial(4) = 24\n" ++ "factorial(5) = 120\n", [0, 1, 2, 3, 4]⟩, .ok 0) := by
    simp only [main_fixed, main_with, loop_five, loop_exit true 5 _ (by decide), printf]
    rfl
  refine ⟨rfl, hmain, by decide, rfl, hfixed, ?_⟩
  rw [hfixed]
  decide

/-- Witness of C9: subscript 3 is inside `numbers`. -/
theorem main_indexes_out_of_bounds_witness : (numbers[3]?).isSome = true :=
  main_indexes_out_of_bounds.2.2.1 3 (by decide)

/-- C10: `factorial` is total and its result is an `int`.  It returns `1` for every
`n ≤ 1`, negative `n` included; for `0 ≤ n ≤ 12` it returns `n!`, and for `2 ≤ n ≤ 12` the
product `n * factorial(n - 1)` it computes lies in the range of a 32-bit `int`.  At `n = 13`
the product is `13! = 6227020800`, above `INT_MAX`, and the result, `13!` reduced modulo
`2 ^ 32`, differs from `13!`. -/
theorem factorial_spec (n : Int) :
    (INT_MIN ≤ factorial n ∧ factorial n ≤ INT_MAX) ∧
    (n ≤ 1 → factorial n = 1) ∧
    (0 ≤ n → n ≤ 12 → factorial n = (n.toNat.factorial : Int)) ∧
    (2 ≤ n → n ≤ 12 →
      INT_MIN ≤ n * factorial (n - 1) ∧ n * factorial (n - 1) ≤ INT_MAX ∧
      factorial n = n * factorial (n - 1)) ∧
    (13 * factorial (13 - 1) = 6227020800 ∧
      ((Nat.factorial 13 : Nat) : Int) = 6227020800 ∧
      INT_MAX < 13 * factorial (13 - 1) ∧
      factorial 13 = 6227020800 % 2 ^ 32 ∧
      factorial 13 ≠ ((Nat.factorial 13 : Nat) : Int)) := by
  refine ⟨factorial_range n, factorial_le_one n, ?_, ?_, ?_⟩
  · intro h0 h12
    interval_cases n
    · rw [factorial_le_one 0 (by decide)]; rfl
    · rw [factorial_le_one 1 (by decide)]; rfl
    · rw [factorial_2]; rfl
    · rw [factorial_3]; rfl
    · rw [factorial_4]; rfl
    · rw [factorial_5]; rfl
    · rw [factorial_6]; rfl
    · rw [factorial_7]; rfl
    · rw [factorial_8]; rfl
    · rw [factorial_9]; rfl
    · rw [factorial_10]; rfl
    · rw [factorial_11]; rfl
    · rw [factorial_12]; rfl
  · intro h2 h12
    interval_cases n
    · rw [factorial_2, show (2 : Int) - 1 = 1 by decide, factorial_le_one 1 (by decide)]
      decide
    · rw [factorial_3, show (3 : Int) - 1 = 2 by decide, factorial_2]; decide
    · rw [factorial_4, show (4 : Int) - 1 = 3 by decide, factorial_3]; decide
    · rw [factorial_5, show (5 : Int) - 1 = 4 by decide, factorial_4]; decide
    · rw [factorial_6, show (6 : Int) - 1 = 5 by decide, factorial_5]; decide
    · rw [factorial_7, show (7 : Int) - 1 = 6 by decide, factorial_6]; decide
    · rw [factorial_8, show (8 : Int) - 1 = 7 by decide, factorial_7]; decide
    · rw [factorial_9, show (9 : Int) - 1 = 8 by decide, factorial_8]; decide
    · rw [factorial_10, show (10 : Int) - 1 = 9 by decide, factorial_9]; decide
    · rw [factorial_11, show (11 : Int) - 1 = 10 by decide, factorial_10]; decide
    · rw [factorial_12, show (12 : Int) - 1 = 11 by decide, factorial_11]; decide
  · rw [factorial_13, show (13 : Int) - 1 = 12 by decide, factorial_12]
    refine ⟨by decide, by rfl, by decide, by decide, ?_⟩
    rw [show ((Nat.factorial 13 : Nat) : Int) = 6227020800 by rfl]
    decide

/-- Witness of C10: `factorial(5)` is `5!`. -/
theorem factorial_spec_witness :
    (0 : Int) ≤ 5 ∧ (5 : Int) ≤ 12 ∧ factorial 5 = ((5 : Int).toNat.factorial : Int) :=
  ⟨by decide, by decide, (factorial_spec 5).2.2.1 (by decide) (by decide)⟩

end debug_example
